import Mathlib

/-!
Verification development for the universal-bridge-uploader scripts
(api.py, fileuploader.py).  The Python source is shallowly embedded:

* JSON values are modelled by the inductive `JValue`, Python dict reads and
  writes by `pyGetItem` / `pySetItem` (raising `PyErr.keyError` /
  `PyErr.typeError` exactly where CPython would), and Python truthiness by
  `JValue.truthy`.
* `LumeoApiClient.request` together with its `backoff.on_exception`
  decorator is modelled by `request` below (a loop over a stream of attempt
  outcomes with an accumulated-time budget of 60).
* The aiocache `cached(ttl=3600)` decorators are modelled by `cachedApiCall`
  over an explicit cache state.
* `fileuploader.py` is modelled in the state-plus-exception monad `PyM`
  over an abstract network oracle `Net`; every network request issued is
  recorded in the world's `calls` trace, and deletion of the local file in
  its `fileDeleted` flag.
-/

/-- A JSON value, as produced by `Response.json()` in the Python source.
`null` doubles as Python `None`. -/
inductive JValue where
  | null
  | bool (b : Bool)
  | str (s : String)
  | num (n : Int)
  | arr (xs : List JValue)
  | obj (fields : List (String × JValue))
deriving Repr

/-- Python exceptions that the embedded code can raise. -/
inductive PyErr where
  | keyError (k : String)
  | typeError
  | attributeError
  | indexError
  | exception (msg : String)
  | httpError (code : Nat)
  | osError
deriving Repr, DecidableEq

/-- Association-list lookup: Python `d[k]` read on a dict with insertion
order, first (unique) matching key wins. -/
def lookupField : List (String × JValue) → String → Option JValue
  | [], _ => none
  | (k', v') :: rest, k => if k' = k then some v' else lookupField rest k

/-- Python `d[k] = v` on a dict: replaces the value of an existing key in
place (keeping its position), else appends the new key at the end. -/
def setField : List (String × JValue) → String → JValue → List (String × JValue)
  | [], k, v => [(k, v)]
  | (k', v') :: rest, k, v =>
      if k' = k then (k, v) :: rest else (k', v') :: setField rest k v

/-- Python truthiness of a JSON value (`if x:`). -/
def JValue.truthy : JValue → Bool
  | .null => false
  | .bool b => b
  | .str s => !s.isEmpty
  | .num n => n != 0
  | .arr xs => !xs.isEmpty
  | .obj fs => !fs.isEmpty

/-- Python `x is not None`. -/
def JValue.isNull : JValue → Bool
  | .null => true
  | _ => false

/-- Python subscript read `x[k]` with a string key: `KeyError` on a dict
missing the key, `TypeError` on `None` and other non-dict values. -/
def pyGetItem : JValue → String → Except PyErr JValue
  | .obj fs, k =>
      match lookupField fs k with
      | some v => .ok v
      | none => .error (.keyError k)
  | _, _ => .error .typeError

/-- Python subscript write `x[k] = v`: only defined on dicts. -/
def pySetItem : JValue → String → JValue → Except PyErr JValue
  | .obj fs, k, v => .ok (.obj (setField fs k v))
  | _, _, _ => .error .typeError

/-- Python `x[0]` on a JSON value. -/
def pyIndex0 : JValue → Except PyErr JValue
  | .arr (x :: _) => .ok x
  | .arr [] => .error .indexError
  | _ => .error .typeError

/-- Python `k in x` membership test, used by the source only on dicts
(responses of queue_deployment); other values are treated as not
containing the key. -/
def pyHasKey : JValue → String → Bool
  | .obj fs, k => (lookupField fs k).isSome
  | _, _ => false

/-- Rendering of a JSON value inside an f-string / URL path.  The source
only ever interpolates string ids on the paths exercised here. -/
def JValue.pyStr : JValue → String
  | .null => "None"
  | .bool true => "True"
  | .bool false => "False"
  | .str s => s
  | .num n => toString n
  | .arr _ => "<list>"
  | .obj _ => "<dict>"

/-- Python `s.split(sep)` over the character list, for a one-character
separator (the source only splits on "/", "?" and "."); structural, so
that it computes by kernel reduction.  Like Python, splitting the empty
string yields one empty part and runs of separators yield empty parts. -/
def splitChar (sep : Char) : List Char → List (List Char)
  | [] => [[]]
  | c :: rest =>
      if c = sep then [] :: splitChar sep rest
      else
        match splitChar sep rest with
        | [] => [[c]]
        | g :: gs => (c :: g) :: gs

/-- Python `s.split(sep)` producing strings. -/
def pySplit (s : String) (sep : Char) : List String :=
  (splitChar sep s.toList).map (fun cs => String.mk cs)

/-- Python `uri.split(sep)[-1]` (split never yields an empty list). -/
def lastSplit (s : String) (sep : Char) : String :=
  (pySplit s sep).getLastD ""

/-- fileuploader.process line 173: the short file name of a URI,
`file_uri.split("/")[-1].split("?")[0]`. -/
def fileNameOf (uri : String) : String :=
  (pySplit (lastSplit uri '/') '?').headD ""

/-- fileuploader.process line 174: the extension checked against the media
allow-list, `file_name.split(".")[-1]`. -/
def extensionOf (uri : String) : String :=
  lastSplit (fileNameOf uri) '.'

/-- Python `s.startswith(pre)` over character lists (structural, so that
it computes by kernel reduction). -/
def beginsWithChars : List Char → List Char → Bool
  | [], _ => true
  | _ :: _, [] => false
  | a :: as, b :: bs => a == b && beginsWithChars as bs

/-- Python `s.startswith(pre)`. -/
def pyStartsWith (s pre : String) : Bool :=
  beginsWithChars pre.toList s.toList

/-- Python `s[:n]` (structural). -/
def pyTake (s : String) (n : Nat) : String :=
  String.mk (s.toList.take n)

/-- fileuploader.process line 174: the media-extension allow-list. -/
def allowedExtensions : List String :=
  ["mp4", "avi", "mov", "mkv", "wmv", "flv", "webm", "jpg", "jpeg", "png"]

theorem lookupField_setField_self (fs : List (String × JValue)) (k : String) (v : JValue) :
    lookupField (setField fs k v) k = some v := by
  induction fs with
  | nil => simp [setField, lookupField]
  | cons p rest ih =>
      obtain ⟨k0, v0⟩ := p
      by_cases h : k0 = k
      · simp [setField, lookupField, h]
      · simp [setField, lookupField, h, ih]

theorem lookupField_setField_ne (fs : List (String × JValue)) (k k' : String) (v : JValue)
    (h : k' ≠ k) : lookupField (setField fs k v) k' = lookupField fs k' := by
  induction fs with
  | nil => simp [setField, lookupField, Ne.symm h]
  | cons p rest ih =>
      obtain ⟨k0, v0⟩ := p
      by_cases hp : k0 = k
      · subst hp
        simp [setField, lookupField, Ne.symm h]
      · simp [setField, lookupField, hp, ih]

/-! ## Model of LumeoApiClient.request with its backoff decorator (api.py lines 52-74) -/

/-- Outcome of one HTTP attempt inside the try of LumeoApiClient.request
(api.py lines 54-58). -/
inductive AttemptResult where
  | success (v : JValue)
  | statusError (code : Nat)
  | transportError
deriving Repr

/-- api.py line 66: client-error status codes treated as permanent. -/
def permanentStatuses : List Nat := [400, 401, 403, 404, 409]

/-- One execution of request's function body, given the outcome of its HTTP
attempt (api.py lines 54-74).  `Sum.inl` means the body returns (a response
or None); `Sum.inr` means an exception leaves the body.

For an HTTPStatusError the except-HTTPError handler logs and either returns
None (permanent status, line 67) or re-raises for backoff (line 70).  For a
transport-level HTTPError the first statement of the handler, the line-61
print of err.response.text, itself raises AttributeError (transport errors
carry no response attribute); an exception raised inside an except block is
not caught by the remaining handlers of the same try, so it leaves the body
and, since backoff only retries HTTPError, propagates to the caller. -/
def requestAttempt : AttemptResult → Sum (Option JValue) PyErr
  | .success v => .inl (some v)
  | .statusError c =>
      if c ∈ permanentStatuses then .inl none else .inr (.httpError c)
  | .transportError => .inr .attributeError

/-- Result of a call to the backoff-wrapped request, as seen by its caller. -/
inductive RequestOutcome where
  | result (r : Option JValue)
  | raised (e : PyErr)
deriving Repr

/-- The backoff.on_exception(backoff.expo, HTTPError, max_time=60,
giveup=backoff_no_giveup) loop around request's body.  `attempts n` is the
outcome of the n-th HTTP attempt and `waits n` the n-th exponential-backoff
wait; each attempt is modelled as taking one time unit, waits are capped so
the accumulated time never exceeds the 60-unit budget, and once the budget
is exhausted backoff re-raises the pending exception to the caller (the
except-Exception clause inside the function body cannot catch this
re-raise, which happens in the decorator, outside the body).  The fuel
argument only serves termination: every iteration advances elapsed by at
least one unit, so starting fuel 61 is never exhausted.  Returns the
outcome together with the number of attempts made and the total wait
incurred. -/
def backoffLoop (attempts : Nat → AttemptResult) (waits : Nat → Nat) :
    Nat → Nat → Nat → Nat → RequestOutcome × Nat × Nat
  | 0, n, _, waited => (.raised (.httpError 0), n, waited)
  | fuel + 1, n, elapsed, waited =>
      match requestAttempt (attempts n) with
      | .inl r => (.result r, n + 1, waited)
      | .inr (.httpError c) =>
          if 60 ≤ elapsed + 1 then (.raised (.httpError c), n + 1, waited)
          else
            backoffLoop attempts waits fuel (n + 1)
              (elapsed + 1 + min (waits n) (60 - (elapsed + 1)))
              (waited + min (waits n) (60 - (elapsed + 1)))
      | .inr e => (.raised e, n + 1, waited)

/-- LumeoApiClient.request as seen by its caller: the decorated function,
started with a fresh attempt history. -/
def request (attempts : Nat → AttemptResult) (waits : Nat → Nat) :
    RequestOutcome × Nat × Nat :=
  backoffLoop attempts waits 61 0 0 0

/-! ## Model of the aiocache cached(ttl=3600) decorators (api.py) -/

/-- One entry of the process-wide in-memory cache: the decorated operation,
its argument key, the cached value and the time it was stored. -/
structure CacheEntry where
  op : String
  args : List String
  value : JValue
  storedAt : Nat
deriving Repr

/-- Cache state together with a log of the network requests actually
performed, and an explicit clock. -/
structure CacheState where
  entries : List CacheEntry
  netCalls : List (String × List String)
  now : Nat
deriving Repr

/-- The ttl=3600 argument of every cached decorator in api.py. -/
def cacheTtl : Nat := 3600

/-- aiocache lookup: the most recent entry for this operation and argument
key, provided it has not yet expired. -/
def cacheLookup (entries : List CacheEntry) (op : String) (args : List String)
    (now : Nat) : Option JValue :=
  match entries.find? (fun e => e.op == op && e.args == args) with
  | some e => if now < e.storedAt + cacheTtl then some e.value else none
  | none => none

/-- A call to a cached(ttl=3600)-decorated operation: on a live cache hit
the stored value is returned with no network activity; otherwise the
network is consulted and the result stored. -/
def cachedApiCall (op : String) (args : List String)
    (net : String → List String → JValue) (s : CacheState) : JValue × CacheState :=
  match cacheLookup s.entries op args s.now with
  | some v => (v, s)
  | none =>
      let v := net op args
      (v, { s with entries := ⟨op, args, v, s.now⟩ :: s.entries,
                   netCalls := s.netCalls ++ [(op, args)] })

/-- A call to an undecorated operation: always a network round trip. -/
def plainApiCall (op : String) (args : List String)
    (net : String → List String → JValue) (s : CacheState) : JValue × CacheState :=
  (net op args, { s with netCalls := s.netCalls ++ [(op, args)] })

namespace CacheLayer

/-- api.py line 164: get_deployment_queue_id carries cached(ttl=3600). -/
def get_deployment_queue_id (net : String → List String → JValue)
    (s : CacheState) : JValue × CacheState :=
  cachedApiCall "get_deployment_queue_id" [] net s

/-- api.py line 128: get_camera_with_id carries no cached decorator. -/
def get_camera_with_id (net : String → List String → JValue) (cameraId : String)
    (s : CacheState) : JValue × CacheState :=
  plainApiCall "get_camera_with_id" [cameraId] net s

/-- api.py line 266: get_stream_with_id carries cached(ttl=3600). -/
def get_stream_with_id (net : String → List String → JValue) (streamId : String)
    (s : CacheState) : JValue × CacheState :=
  cachedApiCall "get_stream_with_id" [streamId] net s

/-- api.py line 332: get_pipeline carries cached(ttl=3600). -/
def get_pipeline (net : String → List String → JValue) (pipelineId : String)
    (s : CacheState) : JValue × CacheState :=
  cachedApiCall "get_pipeline" [pipelineId] net s

/-- api.py line 340: get_deployment carries cached(ttl=3600). -/
def get_deployment (net : String → List String → JValue) (deploymentId : String)
    (s : CacheState) : JValue × CacheState :=
  cachedApiCall "get_deployment" [deploymentId] net s

end CacheLayer

/-- After a cached call that actually hit the network, a second call with
the same operation and arguments at any instant strictly inside the ttl
window returns the stored value and performs no new network round trip. -/
theorem cachedApiCall_second_within_window (op : String) (args : List String)
    (net : String → List String → JValue) (s : CacheState)
    (h0 : cacheLookup s.entries op args s.now = none)
    (t2 : Nat) (h2 : t2 < s.now + cacheTtl) :
    cachedApiCall op args net
        { (cachedApiCall op args net s).2 with now := t2 } =
      ((cachedApiCall op args net s).1,
        { (cachedApiCall op args net s).2 with now := t2 }) := by
  simp only [cachedApiCall, h0]
  simp [cacheLookup, List.find?, h2]

/-! ## Model of fileuploader.py over an abstract network oracle -/

/-- A request issued through the API client (or a local-file operation),
deep-embedded so that runs can be traced.  getFileSize and deleteLocalFile
are local filesystem effects; everything else is a network request. -/
inductive ApiCall where
  | getCameraWithExternalId (externalId : String)
  | getCameraWithId (cameraId : String)
  | createVirtualCamera (externalId name : String)
  | setCameraReferenceDeployments (cameraId deploymentId : String)
  | getDeploymentQueueId
  | createFile (name : String) (size : JValue) (cameraId : JValue)
  | uploadFile (dataUrl metadataUrl filePath : String)
  | setFileStatus (fileId status : String)
  | createFileStream (name url : String) (cameraId : JValue)
  | getPipeline (pipelineId : String)
  | getDeployment (deploymentId : String)
  | queueDeployment (queueId pipelineId : String) (config : JValue) (name : Option String)
  | getFileSize (path : String)
  | deleteLocalFile (path : String)
deriving Repr

/-- What the environment does with one issued request: a successful
response carrying its JSON body, an Absent result (the request wrapper
returned None), or an exception propagating out of the request layer. -/
inductive ReqResult where
  | resp (v : JValue)
  | absent
  | raise (e : PyErr)
deriving Repr

/-- The environment: a server (plus local filesystem) with state σ. -/
def Net (σ : Type) : Type := σ → ApiCall → ReqResult × σ

/-- The world a pipeline run threads along: the environment state, the
trace of issued requests, and whether the local file has been deleted. -/
structure World (σ : Type) where
  server : σ
  calls : List ApiCall
  fileDeleted : Bool
deriving Repr

/-- A fresh world: no requests issued, local file still present. -/
def World.init {σ : Type} (s : σ) : World σ := ⟨s, [], false⟩

/-- State-plus-exception monad in which fileuploader.py is embedded: a
Python exception aborts the computation but keeps the effects already
performed. -/
def PyM (σ : Type) (α : Type) : Type := World σ → Except PyErr α × World σ

def PyM.pure {σ α : Type} (a : α) : PyM σ α := fun w => (.ok a, w)

def PyM.bind {σ α β : Type} (m : PyM σ α) (f : α → PyM σ β) : PyM σ β := fun w =>
  match m w with
  | (.ok a, w') => f a w'
  | (.error e, w') => (.error e, w')

instance {σ : Type} : Monad (PyM σ) where
  pure := PyM.pure
  bind := PyM.bind

/-- Raising a Python exception. -/
def PyM.throw {σ α : Type} (e : PyErr) : PyM σ α := fun w => (.error e, w)

/-- Python try/except-Exception: on any exception run the handler from the
state already reached. -/
def PyM.tryAll {σ α : Type} (m : PyM σ α) (handler : PyM σ α) : PyM σ α := fun w =>
  match m w with
  | (.ok a, w') => (.ok a, w')
  | (.error _, w') => handler w'

/-- Lift a pure Python-level computation (subscript reads and the like). -/
def PyM.lift {σ α : Type} (e : Except PyErr α) : PyM σ α := fun w => (e, w)

/-- Issue one request through the client and record it in the trace. -/
def issueCall {σ : Type} (net : Net σ) (c : ApiCall) : PyM σ ReqResult := fun w =>
  (.ok (net w.server c).1, ⟨(net w.server c).2, w.calls ++ [c], w.fileDeleted⟩)

/-- A successful os.remove of the local file. -/
def markDeleted {σ : Type} : PyM σ Unit := fun w => (.ok (), ⟨w.server, w.calls, true⟩)

/-- Branch on the outcome of an issued request (named eliminator, so that
proofs can rewrite it by cases). -/
def onReq {σ α : Type} (r : ReqResult) (onResp : JValue → PyM σ α)
    (onAbsent : PyM σ α) (onRaise : PyErr → PyM σ α) : PyM σ α :=
  match r with
  | .resp v => onResp v
  | .absent => onAbsent
  | .raise e => onRaise e

/-- Branch on an optional value (named eliminator). -/
def onOpt {σ α β : Type} (o : Option β) (onSome : β → PyM σ α)
    (onNone : PyM σ α) : PyM σ α :=
  match o with
  | some b => onSome b
  | none => onNone

/-- api.py get_camera_with_external_id (lines 115-126).  response.json() is
called without a None check, so an Absent request raises AttributeError.
The not-found decode returns None when the data list is absent or empty.
(Responses that are not JSON objects, or whose data field is not a list,
are corner cases the source would fault on; they never arise here.) -/
def apiGetCameraWithExternalId {σ : Type} (net : Net σ) (externalId : String) :
    PyM σ JValue := do
  let r ← issueCall net (.getCameraWithExternalId externalId)
  onReq r
    (fun rj =>
      match rj with
      | .obj fs =>
          match lookupField fs "data" with
          | some (.arr (x :: _)) => PyM.pure x
          | some (.arr []) => PyM.pure .null
          | some _ => PyM.throw .typeError
          | none => PyM.pure .null
      | .null => PyM.throw .typeError
      | _ => PyM.pure .null)
    (PyM.throw .attributeError)
    PyM.throw

/-- api.py get_camera_with_id (lines 128-137): the response object is
checked for truthiness, so an Absent request yields None, not a raise. -/
def apiGetCameraWithId {σ : Type} (net : Net σ) (cameraId : String) : PyM σ JValue := do
  let r ← issueCall net (.getCameraWithId cameraId)
  onReq r PyM.pure (PyM.pure .null) PyM.throw

/-- api.py create_virtual_camera (lines 139-154): response.json() without a
None check, so an Absent request raises AttributeError. -/
def apiCreateVirtualCamera {σ : Type} (net : Net σ) (externalId name : String) :
    PyM σ JValue := do
  let r ← issueCall net (.createVirtualCamera externalId name)
  onReq r PyM.pure (PyM.throw .attributeError) PyM.throw

/-- api.py set_camera_reference_deployments (lines 156-162): result unused. -/
def apiSetCameraReferenceDeployments {σ : Type} (net : Net σ)
    (cameraId deploymentId : String) : PyM σ Unit := do
  let r ← issueCall net (.setCameraReferenceDeployments cameraId deploymentId)
  onReq r (fun _ => PyM.pure ()) (PyM.pure ()) PyM.throw

/-- api.py get_deployment_queue_id (lines 164-168): response.json() without
a None check, then the Python expression
response_json and response_json[0]["id"] (a falsy body is returned as is). -/
def apiGetDeploymentQueueId {σ : Type} (net : Net σ) : PyM σ JValue := do
  let r ← issueCall net .getDeploymentQueueId
  onReq r
    (fun rj =>
      if rj.truthy then do
        let first ← PyM.lift (pyIndex0 rj)
        PyM.lift (pyGetItem first "id")
      else PyM.pure rj)
    (PyM.throw .attributeError)
    PyM.throw

/-- api.py create_file (lines 170-189): response.json() without a check. -/
def apiCreateFile {σ : Type} (net : Net σ) (name : String) (size : JValue)
    (cameraId : JValue) : PyM σ JValue := do
  let r ← issueCall net (.createFile name size cameraId)
  onReq r PyM.pure (PyM.throw .attributeError) PyM.throw

/-- api.py upload_file (lines 191-205): catches HTTPError from either PUT
and returns False; returns True when both PUTs succeed.  An Absent result
here stands for the caught-HTTPError path. -/
def apiUploadFile {σ : Type} (net : Net σ) (dataUrl metadataUrl filePath : String) :
    PyM σ Bool := do
  let r ← issueCall net (.uploadFile dataUrl metadataUrl filePath)
  onReq r (fun _ => PyM.pure true) (PyM.pure false) PyM.throw

/-- api.py set_file_status (lines 207-213): result unused. -/
def apiSetFileStatus {σ : Type} (net : Net σ) (fileId status : String) : PyM σ Unit := do
  let r ← issueCall net (.setFileStatus fileId status)
  onReq r (fun _ => PyM.pure ()) (PyM.pure ()) PyM.throw

/-- api.py create_file_stream (lines 226-242): response.json() without a
check; the stream name is truncated to 200 characters. -/
def apiCreateFileStream {σ : Type} (net : Net σ) (name url : String)
    (cameraId : JValue) : PyM σ JValue := do
  let r ← issueCall net (.createFileStream (pyTake name 200) url cameraId)
  onReq r PyM.pure (PyM.throw .attributeError) PyM.throw

/-- api.py create_lumeo_file_stream (lines 223-224). -/
def apiCreateLumeoFileStream {σ : Type} (net : Net σ) (file : JValue)
    (cameraId : JValue) : PyM σ JValue := do
  let n ← PyM.lift (pyGetItem file "name")
  let fid ← PyM.lift (pyGetItem file "id")
  apiCreateFileStream net n.pyStr ("lumeo://" ++ fid.pyStr) cameraId

/-- api.py get_pipeline (lines 332-338): response.json() without a check. -/
def apiGetPipeline {σ : Type} (net : Net σ) (pipelineId : String) : PyM σ JValue := do
  let r ← issueCall net (.getPipeline pipelineId)
  onReq r PyM.pure (PyM.throw .attributeError) PyM.throw

/-- api.py get_deployment (lines 340-346): response.json() without a check. -/
def apiGetDeployment {σ : Type} (net : Net σ) (deploymentId : String) : PyM σ JValue := do
  let r ← issueCall net (.getDeployment deploymentId)
  onReq r PyM.pure (PyM.throw .attributeError) PyM.throw

/-- api.py queue_deployment (lines 348-362): response.json() without a check. -/
def apiQueueDeployment {σ : Type} (net : Net σ) (queueId pipelineId : String)
    (config : JValue) (name : Option String) : PyM σ JValue := do
  let r ← issueCall net (.queueDeployment queueId pipelineId config name)
  onReq r PyM.pure (PyM.throw .attributeError) PyM.throw

/-- fileuploader.get_deployment_queue_id (lines 49-56): raises a bare
Exception when the api lookup yields a falsy queue id. -/
def fuGetDeploymentQueueId {σ : Type} (net : Net σ) : PyM σ JValue := do
  let qid ← apiGetDeploymentQueueId net
  if qid.truthy then PyM.pure qid
  else PyM.throw (.exception "Deployment queue not found")

/-- fileuploader.get_or_create_camera_with_external_id (lines 59-64). -/
def getOrCreateCameraWithExternalId {σ : Type} (net : Net σ)
    (cameraExternalId : String) : PyM σ JValue := do
  let camera ← apiGetCameraWithExternalId net cameraExternalId
  if camera.truthy then PyM.pure camera
  else apiCreateVirtualCamera net cameraExternalId cameraExternalId

/-- fileuploader.queue lines 118-121: in-place clone of the reference
deployment's configuration.  Python mutates the nested video1 dict through
an alias; in value semantics that is: read video1 (KeyError on a dict
without it, TypeError on a non-dict, as in CPython), set its source_id and
then its source_type, and write the mutated dict back under video1 (same
position, since the key exists). -/
def cloneConfiguration (cfg : JValue) (streamId : JValue) : Except PyErr JValue := do
  let v1 ← pyGetItem cfg "video1"
  let v1a ← pySetItem v1 "source_id" streamId
  let v1b ← pySetItem v1a "source_type" (.str "stream")
  pySetItem cfg "video1" v1b

/-- fileuploader.queue line 108/109: the conditional expression
camera[key][0] if camera[key] else None (the truthy branch re-reads the
key, as the source expression does). -/
def pyCondIndex0 {σ : Type} (camera2 : JValue) (key : String) (cond : JValue) :
    PyM σ (Option JValue) :=
  if cond.truthy then do
    let arr2 ← PyM.lift (pyGetItem camera2 key)
    let x ← PyM.lift (pyIndex0 arr2)
    PyM.pure (some x)
  else PyM.pure none

/-- fileuploader.queue lines 139-144: extract the queued deployment id (and
read the entry id alongside, as the source does). -/
def readDeploymentId {σ : Type} (queuedDeployment : JValue) : PyM σ JValue :=
  if pyHasKey queuedDeployment "deployment_id" then do
    let d ← PyM.lift (pyGetItem queuedDeployment "deployment_id")
    let _ ← PyM.lift (pyGetItem queuedDeployment "id")
    PyM.pure d
  else PyM.lift (pyGetItem queuedDeployment "id")

/-- fileuploader.queue (lines 99-164), executed while holding the process
wide queuing lock; the lock is represented by running this function
atomically (the C1 theorems compose two such atomic runs).

The call to api_client.create_event at lines 151-153 passes five positional
arguments to a function whose signature (api.py lines 76-79) requires six
(stream_id has no default), so after its f-string arguments are evaluated
the call itself raises TypeError; that is the PyM.throw .typeError below. -/
def queue {σ : Type} (net : Net σ) (inputStream camera : JValue) : PyM σ Bool := do
  let _ ← PyM.lift (pyGetItem inputStream "id")
  let cameraIdJ ← PyM.lift (pyGetItem camera "id")
  let cameraR ← apiGetCameraWithId net cameraIdJ.pyStr
  let rp ← PyM.lift (pyGetItem cameraR "reference_pipeline_ids")
  let defaultPipelineId ← pyCondIndex0 cameraR "reference_pipeline_ids" rp
  let rd ← PyM.lift (pyGetItem cameraR "reference_deployment_ids")
  let referenceDeploymentId ← pyCondIndex0 cameraR "reference_deployment_ids" rd
  onOpt defaultPipelineId
    (fun dpid => do
      let pair ←
        onOpt referenceDeploymentId
          (fun rdid => do
            let referenceDeployment ← apiGetDeployment net rdid.pyStr
            if referenceDeployment.truthy then do
              let cfg0 ← PyM.lift (pyGetItem referenceDeployment "configuration")
              let sid ← PyM.lift (pyGetItem inputStream "id")
              let cfg ← PyM.lift (cloneConfiguration cfg0 sid)
              PyM.pure (cfg, (none : Option String))
            else PyM.pure ((JValue.obj []), (none : Option String)))
          (do
            let sid ← PyM.lift (pyGetItem inputStream "id")
            let cfg := JValue.obj
              [("video1", .obj [("source_type", .str "stream"), ("source_id", sid)])]
            let pipeline ← apiGetPipeline net dpid.pyStr
            let cname ← PyM.lift (pyGetItem cameraR "name")
            if pipeline.truthy then do
              let pname ← PyM.lift (pyGetItem pipeline "name")
              PyM.pure (cfg, some (cname.pyStr ++ " " ++ pname.pyStr ++ " reference deployment"))
            else
              PyM.pure (cfg, some (cname.pyStr ++ " " ++ dpid.pyStr ++ " reference deployment")))
      let queueId ← fuGetDeploymentQueueId net
      let queuedDeployment ← apiQueueDeployment net queueId.pyStr dpid.pyStr pair.1 pair.2
      if queuedDeployment.truthy then do
        let deploymentId ← readDeploymentId queuedDeployment
        onOpt referenceDeploymentId
          (fun _ => PyM.pure ())
          (do
            let cid2 ← PyM.lift (pyGetItem cameraR "id")
            apiSetCameraReferenceDeployments net cid2.pyStr deploymentId.pyStr)
        let _ ← PyM.lift (pyGetItem cameraR "external_id")
        let _ ← PyM.lift (pyGetItem cameraR "id")
        PyM.throw .typeError
      else do
        let _ ← PyM.lift (pyGetItem cameraR "id")
        let _ ← PyM.lift (pyGetItem inputStream "id")
        PyM.pure (!queuedDeployment.isNull))
    (do
      let _ ← PyM.lift (pyGetItem cameraR "id")
      PyM.pure false)

/-- fileuploader.upload_and_create_input_stream (lines 72-91): the whole
body sits in a try/except Exception that logs and leaves input_stream None. -/
def uploadAndCreateInputStream {σ : Type} (net : Net σ) (filePath : String)
    (camera : JValue) : PyM σ JValue :=
  PyM.tryAll
    (do
      let cameraIdJ ← PyM.lift (pyGetItem camera "id")
      let fileName := lastSplit filePath '/'
      let rsize ← issueCall net (.getFileSize filePath)
      let size ← onReq rsize PyM.pure (PyM.throw .osError) PyM.throw
      let fileObject ← apiCreateFile net fileName size cameraIdJ
      let dataUrl ← PyM.lift (pyGetItem fileObject "data_url")
      let metadataUrl ← PyM.lift (pyGetItem fileObject "metadata_url")
      let uploaded ← apiUploadFile net dataUrl.pyStr metadataUrl.pyStr filePath
      if uploaded then do
        let fid ← PyM.lift (pyGetItem fileObject "id")
        apiSetFileStatus net fid.pyStr "uploaded"
        apiCreateLumeoFileStream net fileObject cameraIdJ
      else PyM.pure JValue.null)
    (PyM.pure JValue.null)

/-- fileuploader.create_input_stream (lines 94-97): no try around it. -/
def createInputStream {σ : Type} (net : Net σ) (fileUrl : String)
    (camera : JValue) : PyM σ JValue := do
  let cameraIdJ ← PyM.lift (pyGetItem camera "id")
  let fileName := fileNameOf fileUrl
  apiCreateFileStream net fileName fileUrl cameraIdJ

/-- fileuploader.process lines 184-188: camera resolution (the external-id
path is taken whenever a camera external id is supplied). -/
def resolveCamera {σ : Type} (net : Net σ) (cameraExternalId cameraId : String) :
    PyM σ JValue :=
  if cameraExternalId ≠ "" then getOrCreateCameraWithExternalId net cameraExternalId
  else apiGetCameraWithId net cameraId

/-- fileuploader.process lines 197-200: obtain the input stream, by upload
for a local path or directly for a URL. -/
def obtainInputStream {σ : Type} (net : Net σ) (fileUri : String)
    (camera : JValue) : PyM σ JValue :=
  if !(pyStartsWith fileUri "http") then uploadAndCreateInputStream net fileUri camera
  else createInputStream net fileUri camera

/-- fileuploader.process line 203: queue the deployment when a stream was
obtained, else the item failed. -/
def queueIfStream {σ : Type} (net : Net σ) (inputStream camera : JValue) :
    PyM σ Bool :=
  if inputStream.truthy then queue net inputStream camera else PyM.pure false

/-- fileuploader.process lines 190-212: everything after camera resolution. -/
def processAfterCamera {σ : Type} (net : Net σ) (fileUri : String)
    (deleteProcessedFiles : Bool) (camera : JValue) : PyM σ Bool := do
  if !camera.truthy then PyM.pure false
  else do
    let _ ← PyM.lift (pyGetItem camera "id")
    let _ ← PyM.lift (pyGetItem camera "external_id")
    let _ ← PyM.lift (pyGetItem camera "name")
    let inputStream ← obtainInputStream net fileUri camera
    let success ← queueIfStream net inputStream camera
    if success && deleteProcessedFiles && !(pyStartsWith fileUri "http") then do
      let rdel ← issueCall net (.deleteLocalFile fileUri)
      onReq rdel (fun _ => markDeleted) markDeleted PyM.throw
      PyM.pure success
    else PyM.pure success

/-- fileuploader.process (lines 167-212).  A missing file_uri or camera
selector is modelled by the empty string (Python None is falsy exactly like
the empty string under the truthiness tests the source uses). -/
def process {σ : Type} (net : Net σ) (fileUri cameraExternalId cameraId : String)
    (deleteProcessedFiles : Bool) : PyM σ Bool :=
  if fileUri = "" then PyM.pure false
  else if !(allowedExtensions.contains (extensionOf fileUri)) then PyM.pure false
  else if cameraExternalId = "" && cameraId = "" then PyM.pure false
  else do
    let camera ← resolveCamera net cameraExternalId cameraId
    processAfterCamera net fileUri deleteProcessedFiles camera

/-! ## A concrete server for the lock / reference-deployment scenarios -/

/-- Server state for a workspace with one camera cam1 (external id ext1,
name Cam One) whose default pipeline is pl1, and one deployment queue q1.
Queued deployments get fresh ids d0, d1, ...; every queued entry is
recorded together with the configuration and name that were submitted. -/
structure ServerState where
  refDeployments : List String
  deployments : List (String × JValue)
  nextId : Nat
  queuedEntries : List (String × JValue × Option String)
deriving Repr

/-- The JSON record the server returns for camera cam1. -/
def camJson (s : ServerState) : JValue :=
  .obj [("id", .str "cam1"), ("external_id", .str "ext1"), ("name", .str "Cam One"),
        ("reference_pipeline_ids", .arr [.str "pl1"]),
        ("reference_deployment_ids", .arr (s.refDeployments.map JValue.str))]

/-- The concrete remote service: every operation the pipeline issues
succeeds, except fetching an unknown deployment (Absent / 404).  Setting
the camera's reference deployments replaces the list, as the POST does. -/
def serverNet : Net ServerState := fun s c =>
  match c with
  | .getCameraWithExternalId _ => (.resp (.obj [("data", .arr [camJson s])]), s)
  | .getCameraWithId _ => (.resp (camJson s), s)
  | .createFileStream name url _ =>
      (.resp (.obj [("id", .str "s1"), ("name", .str name), ("uri", .str url)]), s)
  | .getPipeline _ => (.resp (.obj [("name", .str "Pipe")]), s)
  | .getDeploymentQueueId => (.resp (.arr [.obj [("id", .str "q1")]]), s)
  | .getDeployment did =>
      match s.deployments.find? (fun d => d.1 == did) with
      | some d => (.resp (.obj [("id", .str did), ("configuration", d.2)]), s)
      | none => (.absent, s)
  | .queueDeployment _ pid cfg name =>
      (.resp (.obj [("id", .str ("d" ++ toString s.nextId))]),
       { s with nextId := s.nextId + 1,
                deployments := s.deployments ++ [("d" ++ toString s.nextId, cfg)],
                queuedEntries := s.queuedEntries ++ [(pid, cfg, name)] })
  | .setCameraReferenceDeployments _ did =>
      (.resp .null, { s with refDeployments := [did] })
  | _ => (.absent, s)

/-- Input streams and the camera handle the pipelines pass to queue. -/
def streamA : JValue := .obj [("id", .str "sA")]

def streamB : JValue := .obj [("id", .str "sB")]

def camStub : JValue := .obj [("id", .str "cam1")]

/-- Does a call mark a deployment as the camera's reference? -/
def ApiCall.isSetRef : ApiCall → Bool
  | .setCameraReferenceDeployments _ _ => true
  | _ => false

/-- Does a call create a virtual camera? -/
def ApiCall.isCreateVirtualCamera : ApiCall → Bool
  | .createVirtualCamera _ _ => true
  | _ => false

/-! ## Evaluation lemmas for the PyM embedding -/

@[simp] theorem pymBindApply {σ α β : Type} (m : PyM σ α) (f : α → PyM σ β) (w : World σ) :
    (m >>= f) w = match m w with
      | (.ok a, w') => f a w'
      | (.error e, w') => (.error e, w') := rfl

@[simp] theorem pymPureApply {σ α : Type} (a : α) (w : World σ) :
    PyM.pure a w = (.ok a, w) := rfl

@[simp] theorem purePureApply {σ α : Type} (a : α) (w : World σ) :
    (Pure.pure a : PyM σ α) w = (.ok a, w) := rfl

@[simp] theorem pymLiftApply {σ α : Type} (e : Except PyErr α) (w : World σ) :
    (PyM.lift e : PyM σ α) w = (e, w) := rfl

@[simp] theorem pymThrowApply {σ α : Type} (e : PyErr) (w : World σ) :
    (PyM.throw e : PyM σ α) w = (.error e, w) := rfl

@[simp] theorem issueCallApply {σ : Type} (net : Net σ) (c : ApiCall) (w : World σ) :
    issueCall net c w
      = (.ok (net w.server c).1, ⟨(net w.server c).2, w.calls ++ [c], w.fileDeleted⟩) := rfl

@[simp] theorem markDeletedApply {σ : Type} (w : World σ) :
    (markDeleted : PyM σ Unit) w = (.ok (), ⟨w.server, w.calls, true⟩) := rfl

@[simp] theorem tryAllApply {σ α : Type} (m : PyM σ α) (handler : PyM σ α) (w : World σ) :
    PyM.tryAll m handler w = match m w with
      | (.ok a, w') => (.ok a, w')
      | (.error _, w') => handler w' := rfl

/-- A computation that never deletes the local file (only the cleanup step
of processAfterCamera does). -/
def preservesDeleted {σ α : Type} (m : PyM σ α) : Prop :=
  ∀ w, ((m w).2).fileDeleted = w.fileDeleted

@[simp] theorem onReqResp {σ α : Type} (v : JValue) (f : JValue → PyM σ α)
    (g : PyM σ α) (h : PyErr → PyM σ α) : onReq (.resp v) f g h = f v := rfl

@[simp] theorem onReqAbsent {σ α : Type} (f : JValue → PyM σ α)
    (g : PyM σ α) (h : PyErr → PyM σ α) : onReq .absent f g h = g := rfl

@[simp] theorem onReqRaise {σ α : Type} (e : PyErr) (f : JValue → PyM σ α)
    (g : PyM σ α) (h : PyErr → PyM σ α) : onReq (.raise e) f g h = h e := rfl

@[simp] theorem onOptSome {σ α β : Type} (b : β) (f : β → PyM σ α) (g : PyM σ α) :
    onOpt (some b) f g = f b := rfl

@[simp] theorem onOptNone {σ α β : Type} (f : β → PyM σ α) (g : PyM σ α) :
    onOpt none f g = g := rfl

@[simp] theorem iteApply {σ α : Type} (c : Prop) [Decidable c] (m1 m2 : PyM σ α)
    (w : World σ) : (if c then m1 else m2) w = if c then m1 w else m2 w := by
  by_cases h : c <;> simp [h]

theorem pdLift {σ α : Type} (e : Except PyErr α) :
    preservesDeleted (PyM.lift e : PyM σ α) := by
  intro w; cases e <;> rfl

theorem pdBind {σ α β : Type} {m : PyM σ α} {f : α → PyM σ β}
    (hm : preservesDeleted m) (hf : ∀ a, preservesDeleted (f a)) :
    preservesDeleted (m >>= f) := by
  intro w
  have h1 := hm w
  rcases hmw : m w with ⟨r, w1⟩
  rw [hmw] at h1
  cases r with
  | ok a =>
      have h2 := hf a w1
      simp only [pymBindApply, hmw]
      rw [h2, h1]
  | error e =>
      simp only [pymBindApply, hmw]
      exact h1

theorem pdPure {σ α : Type} (a : α) : preservesDeleted (PyM.pure a : PyM σ α) :=
  fun _ => rfl

theorem pdPurePure {σ α : Type} (a : α) :
    preservesDeleted (Pure.pure a : PyM σ α) :=
  fun _ => rfl

theorem pdThrow {σ α : Type} (e : PyErr) :
    preservesDeleted (PyM.throw e : PyM σ α) :=
  fun _ => rfl

theorem pdIssueCall {σ : Type} (net : Net σ) (c : ApiCall) :
    preservesDeleted (issueCall net c) :=
  fun _ => rfl

theorem pdTryAll {σ α : Type} {m handler : PyM σ α}
    (hm : preservesDeleted m) (hh : preservesDeleted handler) :
    preservesDeleted (PyM.tryAll m handler) := by
  intro w
  have h1 := hm w
  rcases hmw : m w with ⟨r, w1⟩
  rw [hmw] at h1
  cases r with
  | ok a => simp only [tryAllApply, hmw]; exact h1
  | error e =>
      have h2 := hh w1
      simp only [tryAllApply, hmw]
      rw [h2, h1]

theorem pdIte {σ α : Type} (c : Prop) [Decidable c] {m1 m2 : PyM σ α}
    (h1 : preservesDeleted m1) (h2 : preservesDeleted m2) :
    preservesDeleted (if c then m1 else m2) := by
  by_cases h : c <;> simp [h, h1, h2]

theorem pdOnReq {σ α : Type} (r : ReqResult) {f : JValue → PyM σ α}
    {g : PyM σ α} {h : PyErr → PyM σ α}
    (hf : ∀ v, preservesDeleted (f v)) (hg : preservesDeleted g)
    (hh : ∀ e, preservesDeleted (h e)) : preservesDeleted (onReq r f g h) := by
  cases r <;> simp [hf, hg, hh]

theorem pdOnOpt {σ α β : Type} (o : Option β) {f : β → PyM σ α} {g : PyM σ α}
    (hf : ∀ b, preservesDeleted (f b)) (hg : preservesDeleted g) :
    preservesDeleted (onOpt o f g) := by
  cases o <;> simp [hf, hg]

theorem pdApiGetCameraWithExternalId {σ : Type} (net : Net σ) (eid : String) :
    preservesDeleted (apiGetCameraWithExternalId net eid) := by
  unfold apiGetCameraWithExternalId
  refine pdBind (pdIssueCall _ _) fun r => pdOnReq r (fun rj => ?_) (pdThrow _) pdThrow
  cases rj with
  | obj fs =>
      rcases hl : lookupField fs "data" with _ | v
      · simp only [hl]; exact pdPure _
      · cases v with
        | arr xs =>
            cases xs with
            | nil => simp only [hl]; exact pdPure _
            | cons x t => simp only [hl]; exact pdPure _
        | null => simp only [hl]; exact pdThrow _
        | bool b => simp only [hl]; exact pdThrow _
        | str s2 => simp only [hl]; exact pdThrow _
        | num n2 => simp only [hl]; exact pdThrow _
        | obj fs2 => simp only [hl]; exact pdThrow _
  | null => exact pdThrow _
  | bool b => exact pdPure _
  | str s2 => exact pdPure _
  | num n2 => exact pdPure _
  | arr xs => exact pdPure _

theorem pdApiGetCameraWithId {σ : Type} (net : Net σ) (cid : String) :
    preservesDeleted (apiGetCameraWithId net cid) := by
  unfold apiGetCameraWithId
  exact pdBind (pdIssueCall _ _) fun r =>
    pdOnReq r (fun v => pdPure _) (pdPure _) pdThrow

theorem pdApiCreateVirtualCamera {σ : Type} (net : Net σ) (eid name : String) :
    preservesDeleted (apiCreateVirtualCamera net eid name) := by
  unfold apiCreateVirtualCamera
  exact pdBind (pdIssueCall _ _) fun r =>
    pdOnReq r (fun v => pdPure _) (pdThrow _) pdThrow

theorem pdApiSetCameraReferenceDeployments {σ : Type} (net : Net σ) (cid did : String) :
    preservesDeleted (apiSetCameraReferenceDeployments net cid did) := by
  unfold apiSetCameraReferenceDeployments
  exact pdBind (pdIssueCall _ _) fun r =>
    pdOnReq r (fun v => pdPure _) (pdPure _) pdThrow

theorem pdApiGetDeploymentQueueId {σ : Type} (net : Net σ) :
    preservesDeleted (apiGetDeploymentQueueId net) := by
  unfold apiGetDeploymentQueueId
  refine pdBind (pdIssueCall _ _) fun r => pdOnReq r (fun rj => ?_) (pdThrow _) pdThrow
  exact pdIte _ (pdBind (pdLift _) fun first => pdLift _) (pdPure _)

theorem pdApiCreateFile {σ : Type} (net : Net σ) (name : String) (size cameraId : JValue) :
    preservesDeleted (apiCreateFile net name size cameraId) := by
  unfold apiCreateFile
  exact pdBind (pdIssueCall _ _) fun r =>
    pdOnReq r (fun v => pdPure _) (pdThrow _) pdThrow

theorem pdApiUploadFile {σ : Type} (net : Net σ) (dataUrl metadataUrl filePath : String) :
    preservesDeleted (apiUploadFile net dataUrl metadataUrl filePath) := by
  unfold apiUploadFile
  exact pdBind (pdIssueCall _ _) fun r =>
    pdOnReq r (fun v => pdPure _) (pdPure _) pdThrow

theorem pdApiSetFileStatus {σ : Type} (net : Net σ) (fid status : String) :
    preservesDeleted (apiSetFileStatus net fid status) := by
  unfold apiSetFileStatus
  exact pdBind (pdIssueCall _ _) fun r =>
    pdOnReq r (fun v => pdPure _) (pdPure _) pdThrow

theorem pdApiCreateFileStream {σ : Type} (net : Net σ) (name url : String)
    (cameraId : JValue) : preservesDeleted (apiCreateFileStream net name url cameraId) := by
  unfold apiCreateFileStream
  exact pdBind (pdIssueCall _ _) fun r =>
    pdOnReq r (fun v => pdPure _) (pdThrow _) pdThrow

theorem pdApiCreateLumeoFileStream {σ : Type} (net : Net σ) (file cameraId : JValue) :
    preservesDeleted (apiCreateLumeoFileStream net file cameraId) := by
  unfold apiCreateLumeoFileStream
  exact pdBind (pdLift _) fun n => pdBind (pdLift _) fun fid =>
    pdApiCreateFileStream net _ _ _

theorem pdApiGetPipeline {σ : Type} (net : Net σ) (pid : String) :
    preservesDeleted (apiGetPipeline net pid) := by
  unfold apiGetPipeline
  exact pdBind (pdIssueCall _ _) fun r =>
    pdOnReq r (fun v => pdPure _) (pdThrow _) pdThrow

theorem pdApiGetDeployment {σ : Type} (net : Net σ) (did : String) :
    preservesDeleted (apiGetDeployment net did) := by
  unfold apiGetDeployment
  exact pdBind (pdIssueCall _ _) fun r =>
    pdOnReq r (fun v => pdPure _) (pdThrow _) pdThrow

theorem pdApiQueueDeployment {σ : Type} (net : Net σ) (qid pid : String)
    (config : JValue) (name : Option String) :
    preservesDeleted (apiQueueDeployment net qid pid config name) := by
  unfold apiQueueDeployment
  exact pdBind (pdIssueCall _ _) fun r =>
    pdOnReq r (fun v => pdPure _) (pdThrow _) pdThrow

theorem pdFuGetDeploymentQueueId {σ : Type} (net : Net σ) :
    preservesDeleted (fuGetDeploymentQueueId net) := by
  unfold fuGetDeploymentQueueId
  exact pdBind (pdApiGetDeploymentQueueId net) fun qid =>
    pdIte _ (pdPure _) (pdThrow _)

theorem pdGetOrCreateCameraWithExternalId {σ : Type} (net : Net σ) (eid : String) :
    preservesDeleted (getOrCreateCameraWithExternalId net eid) := by
  unfold getOrCreateCameraWithExternalId
  exact pdBind (pdApiGetCameraWithExternalId net eid) fun camera =>
    pdIte _ (pdPure _) (pdApiCreateVirtualCamera net eid eid)

theorem pdPyCondIndex0 {σ : Type} (camera2 : JValue) (key : String) (cond : JValue) :
    preservesDeleted (pyCondIndex0 camera2 key cond : PyM σ (Option JValue)) := by
  unfold pyCondIndex0
  exact pdIte _ (pdBind (pdLift _) fun arr2 => pdBind (pdLift _) fun x => pdPure _) (pdPure _)

theorem pdReadDeploymentId {σ : Type} (queuedDeployment : JValue) :
    preservesDeleted (readDeploymentId queuedDeployment : PyM σ JValue) := by
  unfold readDeploymentId
  exact pdIte _ (pdBind (pdLift _) fun d => pdBind (pdLift _) fun a1 => pdPure _) (pdLift _)

theorem pdQueue {σ : Type} (net : Net σ) (inputStream camera : JValue) :
    preservesDeleted (queue net inputStream camera) := by
  unfold queue
  refine pdBind (pdLift _) fun a1 => ?_
  refine pdBind (pdLift _) fun cameraIdJ => ?_
  refine pdBind (pdApiGetCameraWithId net _) fun cameraR => ?_
  refine pdBind (pdLift _) fun rp => ?_
  refine pdBind (pdPyCondIndex0 _ _ _) fun dp => ?_
  refine pdBind (pdLift _) fun rd => ?_
  refine pdBind (pdPyCondIndex0 _ _ _) fun rdid => ?_
  refine pdOnOpt dp (fun dpid => ?_) (pdBind (pdLift _) fun a2 => pdPure _)
  refine pdBind ?_ fun pair => ?_
  · refine pdOnOpt rdid (fun rdid2 => ?_) ?_
    · refine pdBind (pdApiGetDeployment net _) fun refDep => ?_
      refine pdIte _ ?_ (pdPure _)
      exact pdBind (pdLift _) fun cfg0 => pdBind (pdLift _) fun sid =>
        pdBind (pdLift _) fun cfg => pdPure _
    · refine pdBind (pdLift _) fun sid => ?_
      refine pdBind (pdApiGetPipeline net _) fun pl => ?_
      refine pdBind (pdLift _) fun cname => ?_
      exact pdIte _ (pdBind (pdLift _) fun pname => pdPure _) (pdPure _)
  · refine pdBind (pdFuGetDeploymentQueueId net) fun queueId => ?_
    refine pdBind (pdApiQueueDeployment net _ _ _ _) fun qd => ?_
    refine pdIte _ ?_ (pdBind (pdLift _) fun a3 => pdBind (pdLift _) fun a4 => pdPure _)
    refine pdBind (pdReadDeploymentId _) fun did => ?_
    refine pdBind ?_ fun a7 => ?_
    · exact pdOnOpt rdid (fun a6 => pdPure _)
        (pdBind (pdLift _) fun cid2 => pdApiSetCameraReferenceDeployments net _ _)
    exact pdBind (pdLift _) fun a8 => pdBind (pdLift _) fun a9 => pdThrow _

theorem pdUploadAndCreateInputStream {σ : Type} (net : Net σ) (filePath : String)
    (camera : JValue) : preservesDeleted (uploadAndCreateInputStream net filePath camera) := by
  unfold uploadAndCreateInputStream
  refine pdTryAll ?_ (pdPure _)
  refine pdBind (pdLift _) fun cameraIdJ => ?_
  refine pdBind (pdIssueCall _ _) fun rsize => ?_
  refine pdBind ?_ fun size => ?_
  · exact pdOnReq rsize (fun v => pdPure _) (pdThrow _) pdThrow
  refine pdBind (pdApiCreateFile net _ _ _) fun fileObject => ?_
  refine pdBind (pdLift _) fun dataUrl => ?_
  refine pdBind (pdLift _) fun metadataUrl => ?_
  refine pdBind (pdApiUploadFile net _ _ _) fun uploaded => ?_
  refine pdIte _ ?_ (pdPure _)
  refine pdBind (pdLift _) fun fid => ?_
  exact pdBind (pdApiSetFileStatus net _ _) fun a1 => pdApiCreateLumeoFileStream net _ _

theorem pdCreateInputStream {σ : Type} (net : Net σ) (fileUrl : String)
    (camera : JValue) : preservesDeleted (createInputStream net fileUrl camera) := by
  unfold createInputStream
  exact pdBind (pdLift _) fun cameraIdJ => pdApiCreateFileStream net _ _ _

theorem pdObtainInputStream {σ : Type} (net : Net σ) (fileUri : String)
    (camera : JValue) : preservesDeleted (obtainInputStream net fileUri camera) := by
  unfold obtainInputStream
  exact pdIte _ (pdUploadAndCreateInputStream net _ _) (pdCreateInputStream net _ _)

theorem pdQueueIfStream {σ : Type} (net : Net σ) (inputStream camera : JValue) :
    preservesDeleted (queueIfStream net inputStream camera) := by
  unfold queueIfStream
  exact pdIte _ (pdQueue net _ _) (pdPure _)

theorem pdResolveCamera {σ : Type} (net : Net σ) (eid cid : String) :
    preservesDeleted (resolveCamera net eid cid) := by
  unfold resolveCamera
  exact pdIte _ (pdGetOrCreateCameraWithExternalId net eid) (pdApiGetCameraWithId net cid)

/-! ## Scenario runs used by the claim theorems -/

/-- Initial server: no reference deployment, no deployments yet. -/
def emptyServer : ServerState := ⟨[], [], 0, []⟩

/-- The fresh minimal configuration of fileuploader line 124. -/
def freshVideo1 (sid : String) : JValue :=
  .obj [("video1", .obj [("source_type", .str "stream"), ("source_id", .str sid)])]

/-- First pipeline's queue step (stream sA), run atomically under the lock. -/
def lockRunA : Except PyErr Bool × World ServerState :=
  queue serverNet streamA camStub (World.init emptyServer)

/-- Second pipeline's queue step (stream sB) after the first finished. -/
def lockRunAB : Except PyErr Bool × World ServerState :=
  queue serverNet streamB camStub lockRunA.2

/-- The two pipelines acquiring the lock in the other order. -/
def lockRunB : Except PyErr Bool × World ServerState :=
  queue serverNet streamB camStub (World.init emptyServer)

def lockRunBA : Except PyErr Bool × World ServerState :=
  queue serverNet streamA camStub lockRunB.2

/-- Claim C3 (code bug evidence): an API call that fails on every attempt
with HTTP 500 exhausts the 60-unit budget and then RAISES the
HTTPStatusError to the caller (backoff re-raises outside the function body,
where the except-Exception clause cannot catch it) instead of returning
Absent; and a transport-level failure raises AttributeError on the very
first attempt, with no retry and no wait, because the line-61 print
dereferences err.response which transport errors do not carry. -/
theorem c3_exhaustion_raises_instead_of_absent :
    (request (fun _ => .statusError 500) (fun n => 2 ^ n)).1
        = .raised (.httpError 500) ∧
    request (fun _ => .transportError) (fun n => 2 ^ n)
        = (.raised .attributeError, 1, 0) := ⟨rfl, rfl⟩

/-- Claim C4: an attempt failing with HTTP 400, 401, 403, 404 or 409 makes
the request wrapper return Absent (None) on that first attempt, with one
attempt made, no retry and zero backoff wait. -/
theorem c4_permanent_status_absent_immediately
    (attempts : Nat → AttemptResult) (waits : Nat → Nat) (c : Nat)
    (h1 : attempts 0 = .statusError c) (h2 : c ∈ permanentStatuses) :
    request attempts waits = (.result none, 1, 0) := by
  simp [request, backoffLoop, requestAttempt, h1, h2]

theorem c4_witness :
    request (fun _ => .statusError 404) (fun n => 2 ^ n) = (.result none, 1, 0) :=
  c4_permanent_status_absent_immediately (fun _ => .statusError 404) (fun n => 2 ^ n)
    404 rfl (by decide)

/-- A fixed network behaviour for the cache-layer scenarios. -/
def cacheDemoNet : String → List String → JValue := fun _ _ => .obj [("id", .str "camX")]

/-- Two successive camera-by-id fetches with identical arguments. -/
def cacheRun1 : JValue × CacheState :=
  CacheLayer.get_camera_with_id cacheDemoNet "camX" ⟨[], [], 0⟩

def cacheRun2 : JValue × CacheState :=
  CacheLayer.get_camera_with_id cacheDemoNet "camX" cacheRun1.2

/-- Claim C5 (counterexample): get_camera_with_id carries no cached
decorator, so a second call with the same argument at the same instant
performs a second network round trip; the claim that camera-by-id is
cached is false. -/
theorem c5_camera_by_id_not_cached_counterexample :
    cacheRun1.2.netCalls = [("get_camera_with_id", ["camX"])] ∧
    cacheRun2.2.netCalls
      = [("get_camera_with_id", ["camX"]), ("get_camera_with_id", ["camX"])] ∧
    ¬ (cacheRun2.2.netCalls = cacheRun1.2.netCalls) :=
  ⟨rfl, rfl, by decide⟩

/-- Claim C5 (amended): the deployment-queue lookup, stream-by-id,
pipeline-by-id and deployment-by-id lookups are each cached for the 3600
second window keyed by their arguments — after a call that hit the
network, a second call with the same arguments inside the window returns
the stored value and performs no new network round trip — while
camera-by-id is not cached: every call performs a network round trip. -/
theorem c5_read_lookups_cached_except_camera_by_id :
    (∀ (net : String → List String → JValue) (s : CacheState),
        cacheLookup s.entries "get_deployment_queue_id" [] s.now = none →
        ∀ t2 : Nat, t2 < s.now + cacheTtl →
        CacheLayer.get_deployment_queue_id net
            { (CacheLayer.get_deployment_queue_id net s).2 with now := t2 } =
          ((CacheLayer.get_deployment_queue_id net s).1,
            { (CacheLayer.get_deployment_queue_id net s).2 with now := t2 })) ∧
    (∀ (net : String → List String → JValue) (streamId : String) (s : CacheState),
        cacheLookup s.entries "get_stream_with_id" [streamId] s.now = none →
        ∀ t2 : Nat, t2 < s.now + cacheTtl →
        CacheLayer.get_stream_with_id net streamId
            { (CacheLayer.get_stream_with_id net streamId s).2 with now := t2 } =
          ((CacheLayer.get_stream_with_id net streamId s).1,
            { (CacheLayer.get_stream_with_id net streamId s).2 with now := t2 })) ∧
    (∀ (net : String → List String → JValue) (pipelineId : String) (s : CacheState),
        cacheLookup s.entries "get_pipeline" [pipelineId] s.now = none →
        ∀ t2 : Nat, t2 < s.now + cacheTtl →
        CacheLayer.get_pipeline net pipelineId
            { (CacheLayer.get_pipeline net pipelineId s).2 with now := t2 } =
          ((CacheLayer.get_pipeline net pipelineId s).1,
            { (CacheLayer.get_pipeline net pipelineId s).2 with now := t2 })) ∧
    (∀ (net : String → List String → JValue) (deploymentId : String) (s : CacheState),
        cacheLookup s.entries "get_deployment" [deploymentId] s.now = none →
        ∀ t2 : Nat, t2 < s.now + cacheTtl →
        CacheLayer.get_deployment net deploymentId
            { (CacheLayer.get_deployment net deploymentId s).2 with now := t2 } =
          ((CacheLayer.get_deployment net deploymentId s).1,
            { (CacheLayer.get_deployment net deploymentId s).2 with now := t2 })) ∧
    (∀ (net : String → List String → JValue) (cameraId : String) (s : CacheState),
        (CacheLayer.get_camera_with_id net cameraId s).2.netCalls
          = s.netCalls ++ [("get_camera_with_id", [cameraId])]) := by
  refine ⟨?_, ?_, ?_, ?_, ?_⟩
  · intro net s h0 t2 h2
    exact cachedApiCall_second_within_window _ _ net s h0 t2 h2
  · intro net streamId s h0 t2 h2
    exact cachedApiCall_second_within_window _ _ net s h0 t2 h2
  · intro net pipelineId s h0 t2 h2
    exact cachedApiCall_second_within_window _ _ net s h0 t2 h2
  · intro net deploymentId s h0 t2 h2
    exact cachedApiCall_second_within_window _ _ net s h0 t2 h2
  · intro net cameraId s
    rfl

theorem c5_witness :
    CacheLayer.get_pipeline cacheDemoNet "pl9"
        { (CacheLayer.get_pipeline cacheDemoNet "pl9" ⟨[], [], 0⟩).2 with now := 100 } =
      ((CacheLayer.get_pipeline cacheDemoNet "pl9" ⟨[], [], 0⟩).1,
        { (CacheLayer.get_pipeline cacheDemoNet "pl9" ⟨[], [], 0⟩).2 with now := 100 }) :=
  c5_read_lookups_cached_except_camera_by_id.2.2.1 cacheDemoNet "pl9" ⟨[], [], 0⟩ rfl
    100 (by decide)

/-- Claim C7: an item whose file-name extension is outside the media allow
list fails with False before any request is issued, and an item supplying
neither camera selector likewise fails with False before any request; in
both cases the world is untouched (empty call trace). -/
theorem c7_local_validation_fails_before_any_request :
    (∀ (σ : Type) (net : Net σ) (s0 : σ) (uri eid cid : String) (flag : Bool),
        extensionOf uri ∉ allowedExtensions →
        process net uri eid cid flag (World.init s0) = (.ok false, World.init s0)) ∧
    (∀ (σ : Type) (net : Net σ) (s0 : σ) (uri : String) (flag : Bool),
        process net uri "" "" flag (World.init s0) = (.ok false, World.init s0)) := by
  constructor
  · intro σ net s0 uri eid cid flag h
    by_cases huri : uri = ""
    · simp [process, huri]
    · simp [process, huri, h]
  · intro σ net s0 uri flag
    by_cases huri : uri = ""
    · simp [process, huri]
    · by_cases hext : allowedExtensions.contains (extensionOf uri)
      · simp [process, huri, hext]
      · simp [process, huri, hext]

theorem c7_witness :
    process (fun (s : Unit) _ => (ReqResult.absent, s)) "folder/clip.txt" "e1" "c1" true
        (World.init ()) = (.ok false, World.init ()) :=
  c7_local_validation_fails_before_any_request.1 Unit
    (fun (s : Unit) _ => (ReqResult.absent, s)) () "folder/clip.txt" "e1" "c1" true
    (by decide)

/-- Claim C8: with a camera external id supplied, process resolves the
camera through get_or_create_camera_with_external_id; when the lookup
reports no camera (an empty data list), exactly one create-virtual-camera
request is issued, whose external id and display name both equal the
supplied external id, and its result becomes the camera; when only an
internal camera id is supplied and the fetch is Absent (404), process
returns False having issued only the single fetch — no camera creation. -/
theorem c8_camera_resolution :
    (∀ (σ : Type) (net : Net σ) (eid cid : String), eid ≠ "" →
        resolveCamera net eid cid = getOrCreateCameraWithExternalId net eid) ∧
    (∀ (σ : Type) (net : Net σ) (s0 : σ) (eid : String) (s1 : σ) (cam : JValue) (s2 : σ),
        net s0 (.getCameraWithExternalId eid) = (.resp (.obj [("data", .arr [])]), s1) →
        net s1 (.createVirtualCamera eid eid) = (.resp cam, s2) →
        getOrCreateCameraWithExternalId net eid (World.init s0) =
          (.ok cam, ⟨s2, [.getCameraWithExternalId eid, .createVirtualCamera eid eid],
            false⟩)) ∧
    (∀ (σ : Type) (net : Net σ) (s0 : σ) (uri cid : String) (flag : Bool) (s1 : σ),
        allowedExtensions.contains (extensionOf uri) = true → cid ≠ "" →
        net s0 (.getCameraWithId cid) = (.absent, s1) →
        process net uri "" cid flag (World.init s0) =
          (.ok false, ⟨s1, [.getCameraWithId cid], false⟩)) := by
  refine ⟨?_, ?_, ?_⟩
  · intro σ net eid cid h
    simp [resolveCamera, h]
  · intro σ net s0 eid s1 cam s2 h1 h2
    simp [getOrCreateCameraWithExternalId, apiGetCameraWithExternalId,
      apiCreateVirtualCamera, World.init, h1, h2, lookupField, JValue.truthy]
  · intro σ net s0 uri cid flag s1 hext hcid h1
    have huri : ¬ uri = "" := by
      intro he
      rw [he] at hext
      exact absurd hext (by decide)
    have hmem : extensionOf uri ∈ allowedExtensions := by simpa using hext
    simp [process, huri, hmem, hcid, resolveCamera, apiGetCameraWithId,
      processAfterCamera, World.init, h1, JValue.truthy]

/-- A small always-succeeding environment for the C8 witness. -/
def c8Net : Net Nat := fun s c =>
  match c with
  | .getCameraWithExternalId _ => (.resp (.obj [("data", .arr [])]), s + 1)
  | .createVirtualCamera e n =>
      (.resp (.obj [("id", .str "c77"), ("external_id", .str e), ("name", .str n)]), s + 1)
  | _ => (.absent, s)

theorem c8_witness :
    getOrCreateCameraWithExternalId c8Net "extW" (World.init 0) =
      (.ok (.obj [("id", .str "c77"), ("external_id", .str "extW"),
        ("name", .str "extW")]),
        ⟨2, [.getCameraWithExternalId "extW", .createVirtualCamera "extW" "extW"],
          false⟩) :=
  c8_camera_resolution.2.1 Nat c8Net 0 "extW" 1
    (.obj [("id", .str "c77"), ("external_id", .str "extW"), ("name", .str "extW")])
    2 rfl rfl

/-- Claim C10: when both a camera external id and an internal camera id are
supplied, resolution goes through the external-id path and the supplied
internal camera id is never read — the whole run of process is the same
whatever internal id accompanies the external id. -/
theorem c10_internal_id_ignored_when_external_given :
    (∀ (σ : Type) (net : Net σ) (uri eid cid1 cid2 : String) (flag : Bool),
        eid ≠ "" →
        process net uri eid cid1 flag = process net uri eid cid2 flag) ∧
    (∀ (σ : Type) (net : Net σ) (eid cid : String), eid ≠ "" →
        resolveCamera net eid cid = getOrCreateCameraWithExternalId net eid) := by
  constructor
  · intro σ net uri eid cid1 cid2 flag h
    have h1 : resolveCamera net eid cid1 = getOrCreateCameraWithExternalId net eid := by
      simp [resolveCamera, h]
    have h2 : resolveCamera net eid cid2 = getOrCreateCameraWithExternalId net eid := by
      simp [resolveCamera, h]
    simp only [process, h1, h2]
    simp [h]
  · intro σ net eid cid h
    simp [resolveCamera, h]

theorem c10_witness :
    process c8Net "a.mp4" "extW" "cidOne" true = process c8Net "a.mp4" "extW" "cidTwo" true :=
  c10_internal_id_ignored_when_external_given.1 Nat c8Net "a.mp4" "extW" "cidOne"
    "cidTwo" true (by decide)

/-- The end-to-end run of process for a remote URL item against the
concrete server: every remote operation succeeds, the deployment is queued
and set as reference — and then the audit-event call raises. -/
def c2Run : Except PyErr Bool × World ServerState :=
  process serverNet "http://host/clip.mp4" "ext1" "" false (World.init emptyServer)

/-- Claim C2 (code bug evidence): on an item whose every remote step
succeeds, process does not return a boolean: the api_client.create_event
call at fileuploader lines 151-153 passes five positional arguments to a
six-parameter function (api.py lines 76-79, stream_id has no default), so
TypeError escapes the process boundary.  The run below reaches a
successfully queued deployment (one entry, reference set) and then
propagates TypeError. -/
theorem c2_typeerror_escapes_process :
    c2Run.1 = .error .typeError ∧
    c2Run.2.server.queuedEntries =
      [("pl1", freshVideo1 "s1", some "Cam One Pipe reference deployment")] ∧
    c2Run.2.server.refDeployments = ["d0"] := ⟨rfl, rfl, rfl⟩

set_option maxHeartbeats 1600000 in
/-- Claim C1: under the lock, the queue step marks the newly queued
deployment as the camera's reference exactly when the camera re-read
inside the lock had no reference deployment id (first conjunct: one atomic
queue step from an arbitrary server state issues a set-reference request
iff the camera's reference_deployment_ids list is empty); and for two
pipelines for the same camera with no pre-existing reference, run one
after the other in either order, exactly one set-reference request is
issued in total, the first run queues the fresh minimal configuration
(named after camera and pipeline) and its deployment d0 becomes the
reference, while the second run's submitted configuration is exactly the
clone of the reference configuration with the stream pointer swapped (and
no name). -/
theorem c1_reference_set_iff_no_reference_on_reread :
    (∀ s : ServerState,
        (((queue serverNet streamA camStub (World.init s)).2).calls.filter
            ApiCall.isSetRef).length
          = if s.refDeployments = [] then 1 else 0) ∧
    ((lockRunAB.2.calls.filter ApiCall.isSetRef).length = 1 ∧
      lockRunAB.2.server.refDeployments = ["d0"] ∧
      lockRunAB.2.server.queuedEntries =
        [("pl1", freshVideo1 "sA", some "Cam One Pipe reference deployment"),
         ("pl1", freshVideo1 "sB", none)] ∧
      cloneConfiguration (freshVideo1 "sA") (.str "sB") = .ok (freshVideo1 "sB")) ∧
    ((lockRunBA.2.calls.filter ApiCall.isSetRef).length = 1 ∧
      lockRunBA.2.server.refDeployments = ["d0"] ∧
      lockRunBA.2.server.queuedEntries =
        [("pl1", freshVideo1 "sB", some "Cam One Pipe reference deployment"),
         ("pl1", freshVideo1 "sA", none)] ∧
      cloneConfiguration (freshVideo1 "sB") (.str "sA") = .ok (freshVideo1 "sA")) := by
  refine ⟨?_, ⟨rfl, rfl, rfl, rfl⟩, ⟨rfl, rfl, rfl, rfl⟩⟩
  intro s
  obtain ⟨rds, deps, n, qs⟩ := s
  cases rds with
  | nil => rfl
  | cons d rest =>
      cases hf : deps.find? (fun p => p.1 == d) with
      | none =>
          simp [queue, apiGetCameraWithId, apiGetDeployment, apiGetPipeline,
                apiQueueDeployment, apiSetCameraReferenceDeployments,
                apiGetDeploymentQueueId, fuGetDeploymentQueueId, serverNet, camJson,
                pyGetItem, lookupField, JValue.truthy, pyIndex0, pyHasKey, JValue.pyStr,
                cloneConfiguration, pySetItem, setField, World.init, streamA, camStub,
                pyCondIndex0, readDeploymentId, ApiCall.isSetRef, List.filter,
                List.find?, hf]
      | some p =>
          obtain ⟨did, cfg⟩ := p
          cases cfg with
          | obj fields =>
              cases hv : lookupField fields "video1" with
              | none =>
                  simp [queue, apiGetCameraWithId, apiGetDeployment, apiGetPipeline,
                    apiQueueDeployment, apiSetCameraReferenceDeployments,
                    apiGetDeploymentQueueId, fuGetDeploymentQueueId, serverNet, camJson,
                    pyGetItem, lookupField, JValue.truthy, pyIndex0, pyHasKey,
                    JValue.pyStr, cloneConfiguration, pySetItem, setField, World.init,
                    streamA, camStub, pyCondIndex0, readDeploymentId, ApiCall.isSetRef,
                    List.filter, List.find?, hf, hv]
              | some v1 =>
                  cases v1 <;>
                    simp [queue, apiGetCameraWithId, apiGetDeployment, apiGetPipeline,
                      apiQueueDeployment, apiSetCameraReferenceDeployments,
                      apiGetDeploymentQueueId, fuGetDeploymentQueueId, serverNet,
                      camJson, pyGetItem, lookupField, JValue.truthy, pyIndex0,
                      pyHasKey, JValue.pyStr, cloneConfiguration, pySetItem, setField,
                      World.init, streamA, camStub, pyCondIndex0, readDeploymentId,
                      ApiCall.isSetRef, List.filter, List.find?, hf, hv]
          | null =>
              simp [queue, apiGetCameraWithId, apiGetDeployment, apiGetPipeline,
                apiQueueDeployment, apiSetCameraReferenceDeployments,
                apiGetDeploymentQueueId, fuGetDeploymentQueueId, serverNet, camJson,
                pyGetItem, lookupField, JValue.truthy, pyIndex0, pyHasKey, JValue.pyStr,
                cloneConfiguration, pySetItem, setField, World.init, streamA, camStub,
                pyCondIndex0, readDeploymentId, ApiCall.isSetRef, List.filter,
                List.find?, hf]
          | bool b =>
              simp [queue, apiGetCameraWithId, apiGetDeployment, apiGetPipeline,
                apiQueueDeployment, apiSetCameraReferenceDeployments,
                apiGetDeploymentQueueId, fuGetDeploymentQueueId, serverNet, camJson,
                pyGetItem, lookupField, JValue.truthy, pyIndex0, pyHasKey, JValue.pyStr,
                cloneConfiguration, pySetItem, setField, World.init, streamA, camStub,
                pyCondIndex0, readDeploymentId, ApiCall.isSetRef, List.filter,
                List.find?, hf]
          | str s2 =>
              simp [queue, apiGetCameraWithId, apiGetDeployment, apiGetPipeline,
                apiQueueDeployment, apiSetCameraReferenceDeployments,
                apiGetDeploymentQueueId, fuGetDeploymentQueueId, serverNet, camJson,
                pyGetItem, lookupField, JValue.truthy, pyIndex0, pyHasKey, JValue.pyStr,
                cloneConfiguration, pySetItem, setField, World.init, streamA, camStub,
                pyCondIndex0, readDeploymentId, ApiCall.isSetRef, List.filter,
                List.find?, hf]
          | num n2 =>
              simp [queue, apiGetCameraWithId, apiGetDeployment, apiGetPipeline,
                apiQueueDeployment, apiSetCameraReferenceDeployments,
                apiGetDeploymentQueueId, fuGetDeploymentQueueId, serverNet, camJson,
                pyGetItem, lookupField, JValue.truthy, pyIndex0, pyHasKey, JValue.pyStr,
                cloneConfiguration, pySetItem, setField, World.init, streamA, camStub,
                pyCondIndex0, readDeploymentId, ApiCall.isSetRef, List.filter,
                List.find?, hf]
          | arr xs =>
              simp [queue, apiGetCameraWithId, apiGetDeployment, apiGetPipeline,
                apiQueueDeployment, apiSetCameraReferenceDeployments,
                apiGetDeploymentQueueId, fuGetDeploymentQueueId, serverNet, camJson,
                pyGetItem, lookupField, JValue.truthy, pyIndex0, pyHasKey, JValue.pyStr,
                cloneConfiguration, pySetItem, setField, World.init, streamA, camStub,
                pyCondIndex0, readDeploymentId, ApiCall.isSetRef, List.filter,
                List.find?, hf]

/-- A reference deployment d9 with a rich configuration: extra video1
fields and extra top-level fields beyond video1. -/
def richCfg : JValue :=
  .obj [("video1", .obj [("source_type", .str "camera"), ("source_id", .str "old-src"),
          ("resolution", .str "1080p")]),
        ("model", .str "yolo"),
        ("nodes", .arr [.str "n1", .str "n2"])]

/-- One queue step for stream sB against a camera whose reference
deployment d9 carries richCfg. -/
def cloneRun : Except PyErr Bool × World ServerState :=
  queue serverNet streamB camStub (World.init ⟨["d9"], [("d9", richCfg)], 7, []⟩)

/-- Claim C6: cloning the reference deployment keeps every configuration
field except video1.source_id (set to the new stream id) and
video1.source_type (set to "stream"), and the deployment name stays unset.
First conjunct: the frame property of the clone operation, for any
configuration object carrying a video1 object.  Second conjunct: the
concrete clone run submits exactly richCfg with the two video-source
fields overwritten, name none. -/
@[simp] theorem exceptBindOk {α β : Type} (a : α) (f : α → Except PyErr β) :
    (Except.ok a >>= f) = f a := rfl

theorem c6_clone_frame_property :
    (∀ (fields v1 : List (String × JValue)) (sid : JValue),
        lookupField fields "video1" = some (.obj v1) →
        cloneConfiguration (.obj fields) sid =
          .ok (.obj (setField fields "video1"
            (.obj (setField (setField v1 "source_id" sid) "source_type"
              (.str "stream"))))) ∧
        lookupField (setField (setField v1 "source_id" sid) "source_type"
            (.str "stream")) "source_id" = some sid ∧
        lookupField (setField (setField v1 "source_id" sid) "source_type"
            (.str "stream")) "source_type" = some (.str "stream") ∧
        (∀ k, k ≠ "source_id" → k ≠ "source_type" →
          lookupField (setField (setField v1 "source_id" sid) "source_type"
              (.str "stream")) k = lookupField v1 k) ∧
        (∀ k, k ≠ "video1" →
          lookupField (setField fields "video1"
              (.obj (setField (setField v1 "source_id" sid) "source_type"
                (.str "stream")))) k = lookupField fields k)) ∧
    cloneRun.2.server.queuedEntries =
      [("pl1",
        .obj [("video1", .obj [("source_type", .str "stream"), ("source_id", .str "sB"),
                ("resolution", .str "1080p")]),
              ("model", .str "yolo"),
              ("nodes", .arr [.str "n1", .str "n2"])],
        none)] := by
  constructor
  · intro fields v1 sid h
    refine ⟨?_, ?_, ?_, ?_, ?_⟩
    · simp [cloneConfiguration, pyGetItem, h, pySetItem, exceptBindOk]
    · rw [lookupField_setField_ne _ _ _ _ (by decide)]
      exact lookupField_setField_self _ _ _
    · exact lookupField_setField_self _ _ _
    · intro k h1 h2
      rw [lookupField_setField_ne _ _ _ _ h2, lookupField_setField_ne _ _ _ _ h1]
    · intro k h1
      exact lookupField_setField_ne _ _ _ _ h1
  · rfl

theorem c6_witness :
    cloneConfiguration (.obj [("video1", .obj [("wx", .null)])]) (.str "s9") =
      .ok (.obj (setField [("video1", .obj [("wx", .null)])] "video1"
        (.obj (setField (setField [("wx", .null)] "source_id" (.str "s9"))
          "source_type" (.str "stream"))))) :=
  (c6_clone_frame_property.1 [("video1", .obj [("wx", .null)])] [("wx", .null)]
    (.str "s9") rfl).1

theorem c9AuxPac {σ : Type} (net : Net σ) (uri : String) (flag : Bool)
    (cam : JValue) (w1 : World σ) (h1 : w1.fileDeleted = false) :
    ((processAfterCamera net uri flag cam w1).2.fileDeleted = true) ↔
    ((processAfterCamera net uri flag cam w1).1 = .ok true ∧ flag = true ∧
      pyStartsWith uri "http" = false) := by
  unfold processAfterCamera
  by_cases hcam : (!cam.truthy) = true
  · simp [hcam, h1]
  · simp only [iteApply, if_neg hcam]
    cases hga : pyGetItem cam "id" with
    | error e1 => simp [pymBindApply, pymLiftApply, hga, h1]
    | ok v1 =>
      cases hgb : pyGetItem cam "external_id" with
      | error e2 => simp [pymBindApply, pymLiftApply, hga, hgb, h1]
      | ok v2 =>
        cases hgc : pyGetItem cam "name" with
        | error e3 => simp [pymBindApply, pymLiftApply, hga, hgb, hgc, h1]
        | ok v3 =>
          simp only [pymBindApply, pymLiftApply, hga, hgb, hgc]
          rcases hs : obtainInputStream net uri cam w1 with ⟨rs, w2⟩
          have hw2 : w2.fileDeleted = false := by
            have hh := pdObtainInputStream net uri cam w1
            rw [hs] at hh
            rw [hh, h1]
          cases rs with
          | error e4 => simp [hw2]
          | ok stream =>
            rcases hq : queueIfStream net stream cam w2 with ⟨rq, w3⟩
            have hw3 : w3.fileDeleted = false := by
              have hh := pdQueueIfStream net stream cam w2
              rw [hq] at hh
              rw [hh, hw2]
            cases rq with
            | error e5 => simp [hq, hw3]
            | ok b =>
              by_cases hgd : (b && flag && !(pyStartsWith uri "http")) = true
              · have hgd2 := hgd
                simp only [Bool.and_eq_true, Bool.not_eq_true'] at hgd2
                obtain ⟨⟨hb, hf⟩, hsw⟩ := hgd2
                cases hdel : (net w3.server (.deleteLocalFile uri)).1 with
                | raise e6 => simp [hq, hgd, hdel, hw3]
                | absent => simp [hq, hgd, hdel, hb, hf, hsw]
                | resp v6 => simp [hq, hgd, hdel, hb, hf, hsw]
              · simp only [hq, iteApply, if_neg hgd, pymPureApply, hw3]
                simp only [Bool.not_eq_true] at hgd
                constructor
                · intro hfalse
                  simp at hfalse
                · rintro ⟨hb', hf', hsw'⟩
                  simp only [Except.ok.injEq] at hb'
                  rw [hb', hf', hsw'] at hgd
                  simp at hgd

theorem c9Aux {σ : Type} (net : Net σ) (uri : String) (flag : Bool)
    (m : PyM σ JValue) (hm : preservesDeleted m) (w0 : World σ)
    (h0 : w0.fileDeleted = false) :
    (((m >>= processAfterCamera net uri flag) w0).2.fileDeleted = true) ↔
    (((m >>= processAfterCamera net uri flag) w0).1 = .ok true ∧ flag = true ∧
      pyStartsWith uri "http" = false) := by
  rcases hr : m w0 with ⟨rc, w1⟩
  have hw1 : w1.fileDeleted = false := by
    have hh := hm w0
    rw [hr] at hh
    rw [hh, h0]
  simp only [pymBindApply, hr]
  cases rc with
  | error e => simp [hw1]
  | ok cam => exact c9AuxPac net uri flag cam w1 hw1

/-- Claim C9: starting from a fresh world, the local file ends up deleted
exactly when process returned success (ok true), cleanup was requested,
and the file reference was local (does not start with http); in every
other combination — early validation failure, camera not found, a raised
step, queue failure, success without the cleanup flag, or a URL item —
the file remains. -/
theorem c9_local_file_deleted_iff (σ : Type) (net : Net σ) (s0 : σ)
    (uri eid cid : String) (flag : Bool) :
    ((process net uri eid cid flag (World.init s0)).2.fileDeleted = true) ↔
    ((process net uri eid cid flag (World.init s0)).1 = .ok true ∧ flag = true ∧
      pyStartsWith uri "http" = false) := by
  by_cases h1 : uri = ""
  · simp [process, h1, World.init]
  · by_cases h2 : allowedExtensions.contains (extensionOf uri)
    · have hmem : extensionOf uri ∈ allowedExtensions := by simpa using h2
      by_cases hg : (decide (eid = "") && decide (cid = "")) = true
      · simp [process, h1, hmem, hg, World.init]
      · have hpr : process net uri eid cid flag =
            (resolveCamera net eid cid >>= processAfterCamera net uri flag) := by
          simp [process, h1, hmem, hg]
        rw [hpr]
        exact c9Aux net uri flag (resolveCamera net eid cid)
          (pdResolveCamera net eid cid) (World.init s0) rfl
    · have hmem : extensionOf uri ∉ allowedExtensions := by simpa using h2
      simp [process, h1, hmem, World.init]
